import Mathlib

/-
Verification of the asynchronous IoT Hub client layer
(azure/iot/device/iothub/aio/async_clients.py).

The Python file under study is a thin orchestrator: each public coroutine is a
straight-line sequence of awaited steps (awaiting the emulated pipeline call,
awaiting an AwaitableCallback completion, awaiting an inbox dequeue).  We embed
each coroutine as a pure function that produces the ordered list of suspension
points (its trace of awaited actions) together with its observable result and
the updated inbox-manager state.  Collaborator components that the file imports
but that are defined elsewhere (the Message model, the InboxManager, the
async_adapter Callback Bridge) are modelled from the specification and marked
as such in their doc comments.
-/

namespace AsyncClients

/-- Modelled from the spec: the canonical message envelope type
(azure.iot.device.iothub.models.Message, not part of the studied file).
It carries a payload and an optional destination output name; the
constructor `Message(data)` wraps raw data with no output name set. -/
structure Message where
  data : String
  output_name : Option String
deriving DecidableEq, Repr

/-- Modelled from the spec: a method-invocation request event
(the MethodRequest model, not part of the studied file).  Only the
routing name matters to the client layer. -/
structure MethodRequest where
  request_id : String
  name : String
  payload : String
deriving DecidableEq, Repr

/-- Modelled from the spec: the named pipeline features consulted through
`pipeline.feature_enabled` (azure.iot.device.iothub.pipeline.constant). -/
inductive FeatureName
  | METHODS
  | C2D_MSG
  | INPUT_MSG
deriving DecidableEq, Repr

/-- The callback-accepting pipeline entry points invoked by the client layer. -/
inductive PipelineOp
  | connectOp
  | disconnectOp
  | sendD2CMessageOp
  | sendMethodResponseOp
  | enableFeatureOp
  | sendOutputEventOp
deriving DecidableEq, Repr

/-- Identity of an inbox held by the InboxManager: a category plus, for keyed
categories, the routing key. -/
inductive InboxId
  | methodRequestInbox (method_name : Option String)
  | c2dMessageInbox
  | inputMessageInbox (input_name : String)
deriving DecidableEq, Repr

/-- One awaited step (suspension point) of a client coroutine.
`awaitPipelineCall op` is `await emulate_async(pipeline.op)(..., callback=cb)`:
it resumes when the non-blocking pipeline call returns, not when the callback
fires.  `awaitCallbackCompletion op` is `await cb.completion()` on the
AwaitableCallback handed to `op`: it resumes only after the callback has fired
and surfaces the callback's outcome.  `awaitInboxGet i` is `await inbox.get()`
on the inbox identified by `i`. -/
inductive Action
  | awaitPipelineCall (op : PipelineOp)
  | awaitCallbackCompletion (op : PipelineOp)
  | awaitInboxGet (inbox : InboxId)
deriving DecidableEq, Repr

/-- Modelled from the spec: the mutable state of the InboxManager — one FIFO
inbox per key under the method-request category, a single c2d inbox, and one
FIFO inbox per input name.  Every key maps to its (possibly empty) inbox; the
spec's lazy creation is invisible at this level of abstraction. -/
structure InboxManagerState where
  methodRequests : Option String → List MethodRequest
  c2dMessages : List Message
  inputMessages : String → List Message

/-- An InboxManager with every inbox empty. -/
def emptyInboxManager : InboxManagerState :=
  { methodRequests := fun _ => []
    c2dMessages := []
    inputMessages := fun _ => [] }

/-- Modelled from the spec: `InboxManager.clear_all_method_requests` discards
every pending item of every inbox under the method-request category and
touches no other category. -/
def clearAllMethodRequests (mgr : InboxManagerState) : InboxManagerState :=
  { mgr with methodRequests := fun _ => [] }

/-- Modelled from the spec: `Inbox.put` through the manager — append one
method request to the tail of the inbox for the given key. -/
def putMethodRequest (mgr : InboxManagerState) (key : Option String)
    (req : MethodRequest) : InboxManagerState :=
  { mgr with methodRequests := fun k =>
      if k = key then mgr.methodRequests k ++ [req] else mgr.methodRequests k }

/-- `GenericIoTHubClient._on_disconnected`: clears all pending method
requests. -/
def onDisconnected (mgr : InboxManagerState) : InboxManagerState :=
  clearAllMethodRequests mgr

/-- `GenericIoTHubClient._on_state_change`: called by the pipeline with the
new connection state; reacts only to the string "disconnected". -/
def onStateChange (mgr : InboxManagerState) (new_state : String) :
    InboxManagerState :=
  if new_state = "disconnected" then onDisconnected mgr else mgr

/-- Tags naming the handler objects that the client initializers install on
the pipeline's handler slots. -/
inductive HandlerTag
  | onStateChangeHandler
  | routeMethodRequestHandler
  | routeC2DMessageHandler
  | routeInputMessageHandler
deriving DecidableEq, Repr

/-- The pipeline's assignable inbound handler slots (unassigned = `none`). -/
structure PipelineSlots where
  on_connected : Option HandlerTag
  on_disconnected : Option HandlerTag
  on_method_request_received : Option HandlerTag
  on_c2d_message_received : Option HandlerTag
  on_input_message_received : Option HandlerTag
deriving DecidableEq, Repr

/-- A freshly constructed pipeline: no handler slot assigned. -/
def freshPipelineSlots : PipelineSlots :=
  ⟨none, none, none, none, none⟩

/-- `GenericIoTHubClient.__init__`: installs `_on_state_change` in both
connection-state slots and the method-request router in the
method-request-received slot. -/
def genericIoTHubClientInit (p : PipelineSlots) : PipelineSlots :=
  { p with
    on_connected := some HandlerTag.onStateChangeHandler
    on_disconnected := some HandlerTag.onStateChangeHandler
    on_method_request_received := some HandlerTag.routeMethodRequestHandler }

/-- `IoTHubDeviceClient.__init__`: the generic initializer, then the c2d
router in the c2d-message-received slot. -/
def ioTHubDeviceClientInit (p : PipelineSlots) : PipelineSlots :=
  let q := genericIoTHubClientInit p
  { q with on_c2d_message_received := some HandlerTag.routeC2DMessageHandler }

/-- `IoTHubModuleClient.__init__`: the generic initializer, then the input
router in the input-message-received slot. -/
def ioTHubModuleClientInit (p : PipelineSlots) : PipelineSlots :=
  let q := genericIoTHubClientInit p
  { q with on_input_message_received := some HandlerTag.routeInputMessageHandler }

/-- Outcome reported by a pipeline operation's callback. -/
inductive CallbackOutcome
  | success
  | failure (error : String)
deriving DecidableEq, Repr

/-- Modelled from the spec: `AwaitableCallback.completion()` surfaces the
callback's outcome to the awaiting caller — success yields no payload,
failure propagates unchanged. -/
def completionResult : CallbackOutcome → Except String Unit
  | CallbackOutcome.success => Except.ok ()
  | CallbackOutcome.failure e => Except.error e

/-- `GenericIoTHubClient.connect`: awaits the emulated pipeline connect call,
then awaits the callback's completion; the result is the completion's
outcome, with no payload beyond success or propagated failure. -/
def connectRun (outcome : CallbackOutcome) : List Action × Except String Unit :=
  ([Action.awaitPipelineCall PipelineOp.connectOp,
    Action.awaitCallbackCompletion PipelineOp.connectOp],
   completionResult outcome)

/-- `GenericIoTHubClient.disconnect`: awaits the emulated pipeline disconnect
call, then awaits the callback's completion. -/
def disconnectRun (outcome : CallbackOutcome) :
    List Action × Except String Unit :=
  ([Action.awaitPipelineCall PipelineOp.disconnectOp,
    Action.awaitCallbackCompletion PipelineOp.disconnectOp],
   completionResult outcome)

/-- The argument accepted by the send operations: either an existing Message
instance or raw (non-Message) data. -/
inductive SendArg
  | msgArg (m : Message)
  | rawArg (data : String)
deriving DecidableEq, Repr

/-- The `isinstance(message, Message)` guard followed by `Message(message)`:
a Message passes through unchanged, anything else is wrapped. -/
def normalizeToMessage : SendArg → Message
  | SendArg.msgArg m => m
  | SendArg.rawArg d => { data := d, output_name := none }

/-- `GenericIoTHubClient.send_d2c_message`: normalizes the argument to a
Message, awaits the emulated pipeline send call with that Message, then
awaits the callback's completion.  The second component is the envelope the
pipeline's send operation receives. -/
def sendD2CMessage (message : SendArg) : List Action × Message :=
  let m := normalizeToMessage message
  ([Action.awaitPipelineCall PipelineOp.sendD2CMessageOp,
    Action.awaitCallbackCompletion PipelineOp.sendD2CMessageOp],
   m)

/-- `IoTHubModuleClient.send_to_output`: normalizes the argument, assigns
`message.output_name = output_name`, awaits the emulated send-output-event
call with that envelope, then awaits the callback's completion.  The second
component is the envelope the pipeline receives. -/
def sendToOutput (message : SendArg) (output_name : String) :
    List Action × Message :=
  let m := normalizeToMessage message
  let m := { m with output_name := some output_name }
  ([Action.awaitPipelineCall PipelineOp.sendOutputEventOp,
    Action.awaitCallbackCompletion PipelineOp.sendOutputEventOp],
   m)

/-- `GenericIoTHubClient._enable_feature`: awaits the emulated pipeline
enable-feature call — and nothing else.  An AwaitableCallback is constructed
and handed to the pipeline, but `callback.completion()` is never awaited, so
this coroutine's trace contains no completion await. -/
def enableFeatureActions (feature_name : FeatureName) : List Action :=
  [Action.awaitPipelineCall PipelineOp.enableFeatureOp]

/-- `GenericIoTHubClient.receive_method_request`: if the METHODS feature is
not enabled, run `_enable_feature`; then obtain the method-request inbox for
the given name and await its `get`.  The result is `none` while the inbox is
empty (the coroutine stays suspended on the get) and otherwise the dequeued
head together with the manager state after removal. -/
def receiveMethodRequest (feature_enabled : FeatureName → Bool)
    (mgr : InboxManagerState) (method_name : Option String) :
    List Action × Option (MethodRequest × InboxManagerState) :=
  let pre := if feature_enabled FeatureName.METHODS then []
             else enableFeatureActions FeatureName.METHODS
  (pre ++ [Action.awaitInboxGet (InboxId.methodRequestInbox method_name)],
   match mgr.methodRequests method_name with
   | [] => none
   | x :: rest =>
       some (x, { mgr with methodRequests := fun k =>
          if k = method_name then rest else mgr.methodRequests k }))

/-- `IoTHubDeviceClient.receive_c2d_message`: if the C2D_MSG feature is not
enabled, run `_enable_feature`; then await `get` on the single c2d inbox. -/
def receiveC2DMessage (feature_enabled : FeatureName → Bool)
    (mgr : InboxManagerState) :
    List Action × Option (Message × InboxManagerState) :=
  let pre := if feature_enabled FeatureName.C2D_MSG then []
             else enableFeatureActions FeatureName.C2D_MSG
  (pre ++ [Action.awaitInboxGet InboxId.c2dMessageInbox],
   match mgr.c2dMessages with
   | [] => none
   | x :: rest => some (x, { mgr with c2dMessages := rest }))

/-- `IoTHubModuleClient.receive_input_message`: if the INPUT_MSG feature is
not enabled, run `_enable_feature`; then await `get` on the inbox for the
given input name. -/
def receiveInputMessage (feature_enabled : FeatureName → Bool)
    (mgr : InboxManagerState) (input_name : String) :
    List Action × Option (Message × InboxManagerState) :=
  let pre := if feature_enabled FeatureName.INPUT_MSG then []
             else enableFeatureActions FeatureName.INPUT_MSG
  (pre ++ [Action.awaitInboxGet (InboxId.inputMessageInbox input_name)],
   match mgr.inputMessages input_name with
   | [] => none
   | x :: rest =>
       some (x, { mgr with inputMessages := fun k =>
          if k = input_name then rest else mgr.inputMessages k }))

/-- `GenericIoTHubClient.get_twin`: the body is `pass` — no awaited action,
no state change, no return value. -/
def getTwin (mgr : InboxManagerState) :
    List Action × InboxManagerState × Option Unit :=
  ([], mgr, none)

/-- `GenericIoTHubClient.patch_twin_reported_properties`: the body is `pass`. -/
def patchTwinReportedProperties (mgr : InboxManagerState)
    (reported_properties_patch : String) :
    List Action × InboxManagerState × Option Unit :=
  ([], mgr, none)

/-- `GenericIoTHubClient.receive_twin_desired_properties_patch`: the body is
`pass`. -/
def receiveTwinDesiredPropertiesPatch (mgr : InboxManagerState) :
    List Action × InboxManagerState × Option Unit :=
  ([], mgr, none)

/-- A heap of Message objects addressed by reference, for reasoning about
in-place mutation of a caller-owned Message. -/
structure MessageHeap where
  contents : Nat → Message

/-- The send-to-output argument at the heap level: a reference to an existing
Message object, or raw data to be wrapped in a fresh Message. -/
inductive SendArgRef
  | msgRef (r : Nat)
  | rawArg (data : String)
deriving DecidableEq, Repr

/-- `IoTHubModuleClient.send_to_output` at the heap level: an argument that
already is a Message is not copied — `message.output_name = output_name`
mutates the referenced object in place and that same reference is handed to
the pipeline; raw data is wrapped in a freshly allocated Message.  Returns
the updated heap and the reference the pipeline receives. -/
def sendToOutputOnHeap (heap : MessageHeap) (fresh : Nat)
    (message : SendArgRef) (output_name : String) : MessageHeap × Nat :=
  match message with
  | SendArgRef.msgRef r =>
      ({ contents := fun i =>
          if i = r then { heap.contents r with output_name := some output_name }
          else heap.contents i },
       r)
  | SendArgRef.rawArg d =>
      ({ contents := fun i =>
          if i = fresh then { data := d, output_name := some output_name }
          else heap.contents i },
       fresh)

/-- C1: the claim requires that, on a receive with the feature flag false, the
enable-feature callback's outcome is observed before the inbox wait and that a
reported failure aborts the receive.  The code violates this: with every
feature flag false and empty inboxes, each of the three receive operations
awaits the emulated enable-feature pipeline call, never awaits the
AwaitableCallback's completion (so the callback's outcome — success or
failure — is never observed), and still proceeds to suspend on the inbox get
(its trace ends with the inbox-get await and its result is the suspended
`none`). -/
theorem C1_enable_feature_outcome_never_observed :
    (Action.awaitPipelineCall PipelineOp.enableFeatureOp
        ∈ (receiveMethodRequest (fun _ => false) emptyInboxManager none).1
      ∧ Action.awaitCallbackCompletion PipelineOp.enableFeatureOp
        ∉ (receiveMethodRequest (fun _ => false) emptyInboxManager none).1
      ∧ (receiveMethodRequest (fun _ => false) emptyInboxManager none).1.getLast?
        = some (Action.awaitInboxGet (InboxId.methodRequestInbox none))
      ∧ ((receiveMethodRequest (fun _ => false) emptyInboxManager none).2).isNone = true)
    ∧ (Action.awaitPipelineCall PipelineOp.enableFeatureOp
        ∈ (receiveC2DMessage (fun _ => false) emptyInboxManager).1
      ∧ Action.awaitCallbackCompletion PipelineOp.enableFeatureOp
        ∉ (receiveC2DMessage (fun _ => false) emptyInboxManager).1
      ∧ (receiveC2DMessage (fun _ => false) emptyInboxManager).1.getLast?
        = some (Action.awaitInboxGet InboxId.c2dMessageInbox)
      ∧ ((receiveC2DMessage (fun _ => false) emptyInboxManager).2).isNone = true)
    ∧ (Action.awaitPipelineCall PipelineOp.enableFeatureOp
        ∈ (receiveInputMessage (fun _ => false) emptyInboxManager "input1").1
      ∧ Action.awaitCallbackCompletion PipelineOp.enableFeatureOp
        ∉ (receiveInputMessage (fun _ => false) emptyInboxManager "input1").1
      ∧ (receiveInputMessage (fun _ => false) emptyInboxManager "input1").1.getLast?
        = some (Action.awaitInboxGet (InboxId.inputMessageInbox "input1"))
      ∧ ((receiveInputMessage (fun _ => false) emptyInboxManager "input1").2).isNone = true) := by
  decide

/-- C2: for each receive operation, the enable-feature pipeline call appears
in the trace exactly when the category's feature flag is false; the final
suspension point is the get on the inbox for that category and key; the
returned item is exactly the head that the get dequeues from that inbox (none
while the inbox is empty), and the dequeued item is removed from that inbox. -/
theorem C2_receive_enables_iff_flag_false_and_returns_dequeued_item
    (f : FeatureName → Bool) (mgr : InboxManagerState)
    (method_name : Option String) (input_name : String) :
    ((Action.awaitPipelineCall PipelineOp.enableFeatureOp
        ∈ (receiveMethodRequest f mgr method_name).1)
      ↔ f FeatureName.METHODS = false)
    ∧ (receiveMethodRequest f mgr method_name).1.getLast?
        = some (Action.awaitInboxGet (InboxId.methodRequestInbox method_name))
    ∧ ((receiveMethodRequest f mgr method_name).2).map Prod.fst
        = (mgr.methodRequests method_name).head?
    ∧ ((receiveMethodRequest f mgr method_name).2).map
          (fun p => p.2.methodRequests method_name)
        = (mgr.methodRequests method_name).tail?
    ∧ ((Action.awaitPipelineCall PipelineOp.enableFeatureOp
        ∈ (receiveC2DMessage f mgr).1)
      ↔ f FeatureName.C2D_MSG = false)
    ∧ (receiveC2DMessage f mgr).1.getLast?
        = some (Action.awaitInboxGet InboxId.c2dMessageInbox)
    ∧ ((receiveC2DMessage f mgr).2).map Prod.fst = mgr.c2dMessages.head?
    ∧ ((receiveC2DMessage f mgr).2).map (fun p => p.2.c2dMessages)
        = mgr.c2dMessages.tail?
    ∧ ((Action.awaitPipelineCall PipelineOp.enableFeatureOp
        ∈ (receiveInputMessage f mgr input_name).1)
      ↔ f FeatureName.INPUT_MSG = false)
    ∧ (receiveInputMessage f mgr input_name).1.getLast?
        = some (Action.awaitInboxGet (InboxId.inputMessageInbox input_name))
    ∧ ((receiveInputMessage f mgr input_name).2).map Prod.fst
        = (mgr.inputMessages input_name).head?
    ∧ ((receiveInputMessage f mgr input_name).2).map
          (fun p => p.2.inputMessages input_name)
        = (mgr.inputMessages input_name).tail? := by
  refine ⟨?_, ?_, ?_, ?_, ?_, ?_, ?_, ?_, ?_, ?_, ?_, ?_⟩
  · cases hf : f FeatureName.METHODS <;>
      simp [receiveMethodRequest, enableFeatureActions, hf]
  · simp [receiveMethodRequest, List.getLast?_append_cons]
  · cases hq : mgr.methodRequests method_name <;>
      simp [receiveMethodRequest, hq]
  · cases hq : mgr.methodRequests method_name <;>
      simp [receiveMethodRequest, hq]
  · cases hf : f FeatureName.C2D_MSG <;>
      simp [receiveC2DMessage, enableFeatureActions, hf]
  · simp [receiveC2DMessage, List.getLast?_append_cons]
  · cases hq : mgr.c2dMessages <;> simp [receiveC2DMessage, hq]
  · cases hq : mgr.c2dMessages <;> simp [receiveC2DMessage, hq]
  · cases hf : f FeatureName.INPUT_MSG <;>
      simp [receiveInputMessage, enableFeatureActions, hf]
  · simp [receiveInputMessage, List.getLast?_append_cons]
  · cases hq : mgr.inputMessages input_name <;>
      simp [receiveInputMessage, hq]
  · cases hq : mgr.inputMessages input_name <;>
      simp [receiveInputMessage, hq]

/-- C3: a state-change notification with value "disconnected" leaves every
method-request inbox empty; no notification, whatever its value, modifies the
c2d inbox or any input-message inbox; and a notification whose value is not
"disconnected" leaves the whole inbox-manager state unchanged. -/
theorem C3_only_disconnected_clears_and_only_method_requests
    (mgr : InboxManagerState) (s : String) (k : Option String) :
    (onStateChange mgr "disconnected").methodRequests k = []
    ∧ (onStateChange mgr s).c2dMessages = mgr.c2dMessages
    ∧ (onStateChange mgr s).inputMessages = mgr.inputMessages
    ∧ (s = "disconnected" ∨ onStateChange mgr s = mgr) := by
  by_cases h : s = "disconnected"
  · exact ⟨rfl, by simp [onStateChange, onDisconnected, clearAllMethodRequests, h],
      by simp [onStateChange, onDisconnected, clearAllMethodRequests, h],
      Or.inl h⟩
  · exact ⟨rfl, by simp [onStateChange, h], by simp [onStateChange, h],
      Or.inr (by simp [onStateChange, h])⟩

/-- C4: connect and disconnect each await the emulated pipeline call and then
await the callback's completion; their final suspension point is the
completion await, so the caller resumes only after the callback has fired;
the result carries no payload: success yields the unit value and a callback
failure propagates unchanged. -/
theorem C4_connect_disconnect_await_callback_completion (e : String) :
    connectRun CallbackOutcome.success
      = ([Action.awaitPipelineCall PipelineOp.connectOp,
          Action.awaitCallbackCompletion PipelineOp.connectOp], Except.ok ())
    ∧ (connectRun (CallbackOutcome.failure e)).2 = Except.error e
    ∧ disconnectRun CallbackOutcome.success
      = ([Action.awaitPipelineCall PipelineOp.disconnectOp,
          Action.awaitCallbackCompletion PipelineOp.disconnectOp], Except.ok ())
    ∧ (disconnectRun (CallbackOutcome.failure e)).2 = Except.error e
    ∧ (∀ o : CallbackOutcome, (connectRun o).1.getLast?
        = some (Action.awaitCallbackCompletion PipelineOp.connectOp))
    ∧ (∀ o : CallbackOutcome, (disconnectRun o).1.getLast?
        = some (Action.awaitCallbackCompletion PipelineOp.disconnectOp)) := by
  refine ⟨rfl, rfl, rfl, rfl, fun o => rfl, fun o => rfl⟩

/-- C5: send_d2c_message hands the pipeline a Message in every case — an
argument that already is a Message is passed through unchanged, any other
payload is wrapped by the Message constructor first — and the envelope the
pipeline receives is exactly the normalization of the argument. -/
theorem C5_send_d2c_normalizes_payload_to_message
    (m : Message) (d : String) (arg : SendArg) :
    (sendD2CMessage (SendArg.msgArg m)).2 = m
    ∧ (sendD2CMessage (SendArg.rawArg d)).2 = { data := d, output_name := none }
    ∧ (sendD2CMessage arg).2 = normalizeToMessage arg
    ∧ (sendD2CMessage arg).1
      = [Action.awaitPipelineCall PipelineOp.sendD2CMessageOp,
         Action.awaitCallbackCompletion PipelineOp.sendD2CMessageOp] := by
  refine ⟨rfl, rfl, rfl, rfl⟩

/-- C6: send_to_output normalizes its argument when needed and stamps the
given output name onto the envelope before the send-output-event call: the
envelope the pipeline receives always carries `some output_name`, its payload
is the normalized argument's payload, and for an argument that already is a
Message the envelope is that Message with only its output_name replaced. -/
theorem C6_send_to_output_stamps_output_name
    (arg : SendArg) (m : Message) (output_name : String) :
    ((sendToOutput arg output_name).2).output_name = some output_name
    ∧ ((sendToOutput arg output_name).2).data = (normalizeToMessage arg).data
    ∧ (sendToOutput (SendArg.msgArg m) output_name).2
      = { m with output_name := some output_name }
    ∧ (sendToOutput arg output_name).1
      = [Action.awaitPipelineCall PipelineOp.sendOutputEventOp,
         Action.awaitCallbackCompletion PipelineOp.sendOutputEventOp] := by
  refine ⟨rfl, rfl, rfl, rfl⟩

/-- C7: the three twin operations are stubs — each produces no awaited
pipeline action, leaves the inbox-manager state exactly as it was, and
returns no value. -/
theorem C7_twin_operations_are_stubs
    (mgr : InboxManagerState) (patch : String) :
    getTwin mgr = ([], mgr, none)
    ∧ patchTwinReportedProperties mgr patch = ([], mgr, none)
    ∧ receiveTwinDesiredPropertiesPatch mgr = ([], mgr, none) :=
  ⟨rfl, rfl, rfl⟩

/-- C8: the very same state-change handler is installed in both the
on_connected and on_disconnected slots by every initializer; the handler's
effect depends only on the state value in the notification (a prior
"connected" notification changes nothing), and a repeated "disconnected"
notification clears the method-request inboxes again, even after further
requests were queued in between. -/
theorem C8_purge_depends_only_on_state_value
    (p : PipelineSlots) (mgr : InboxManagerState) (key k : Option String)
    (req : MethodRequest) (s : String) :
    (genericIoTHubClientInit p).on_connected
      = (genericIoTHubClientInit p).on_disconnected
    ∧ (genericIoTHubClientInit p).on_connected
      = some HandlerTag.onStateChangeHandler
    ∧ (ioTHubDeviceClientInit p).on_connected
      = (ioTHubDeviceClientInit p).on_disconnected
    ∧ (ioTHubModuleClientInit p).on_connected
      = (ioTHubModuleClientInit p).on_disconnected
    ∧ (onStateChange (putMethodRequest (onStateChange mgr "disconnected") key req)
        "disconnected").methodRequests k = []
    ∧ onStateChange (onStateChange mgr "connected") s = onStateChange mgr s := by
  refine ⟨rfl, rfl, rfl, rfl, rfl, ?_⟩
  simp [onStateChange]

/-- C10: handler registration is split by client type: every initializer
installs the method-request router; only the device client installs the c2d
router (the module client's c2d slot stays unassigned); only the module
client installs the input-message router (the device client's input slot
stays unassigned). -/
theorem C10_handler_registration_split_by_client_type :
    (ioTHubDeviceClientInit freshPipelineSlots).on_method_request_received
      = some HandlerTag.routeMethodRequestHandler
    ∧ (ioTHubDeviceClientInit freshPipelineSlots).on_c2d_message_received
      = some HandlerTag.routeC2DMessageHandler
    ∧ (ioTHubDeviceClientInit freshPipelineSlots).on_input_message_received
      = none
    ∧ (ioTHubModuleClientInit freshPipelineSlots).on_method_request_received
      = some HandlerTag.routeMethodRequestHandler
    ∧ (ioTHubModuleClientInit freshPipelineSlots).on_input_message_received
      = some HandlerTag.routeInputMessageHandler
    ∧ (ioTHubModuleClientInit freshPipelineSlots).on_c2d_message_received
      = none
    ∧ (genericIoTHubClientInit freshPipelineSlots).on_method_request_received
      = some HandlerTag.routeMethodRequestHandler := by
  decide

/-- C9: when the argument to send_to_output is already a Message, the
operation mutates the caller's own object in place: the reference the
pipeline receives is the very reference the caller passed, and after the call
the object behind that reference has its output_name overwritten with the
given name while its payload is untouched. -/
theorem C9_send_to_output_mutates_caller_message_in_place
    (heap : MessageHeap) (fresh r : Nat) (name : String) :
    (sendToOutputOnHeap heap fresh (SendArgRef.msgRef r) name).2 = r
    ∧ ((sendToOutputOnHeap heap fresh (SendArgRef.msgRef r) name).1.contents r).output_name
      = some name
    ∧ ((sendToOutputOnHeap heap fresh (SendArgRef.msgRef r) name).1.contents r).data
      = (heap.contents r).data := by
  refine ⟨rfl, ?_, ?_⟩ <;> simp [sendToOutputOnHeap]

end AsyncClients
